import Mathlib

/-!
Shallow embedding of `src/app_distribuicao.py` ("Apoio à Distribuição de
Atividades 'Verificar'"), a Streamlit dashboard consisting of

* `carregar_dados_contextuais` (lines 67-113): a parameterized SQL query
  against `ViewGrdAtividadesTarcisio` followed by pandas normalisation
  (`astype(str)` on the id, `pd.to_datetime(..., errors='coerce')` on the
  date, `fillna("")` on the text) and a timestamp-descending sort; and
* `main` (lines 116-268): login/date-range gating, the open-subset filters,
  the per-folder alert count, the (assignee asc, folder asc, date desc)
  sort and the per-group folder-history lookup.

Timestamps are modelled as `Int` (the `DATE()` truncation of the SQL
`BETWEEN` is abstracted: window bounds and timestamps live on the same
axis).  pandas `NaN`/`NaT`/SQL `NULL` is `Option.none`.  pandas comparison
semantics are kept: `NaN == x` is false for every `x`, including `NaN`
(`nanEq`), `value_counts` drops `NaN` keys, and `sort_values` places
missing keys last in every column (`na_position='last'`).
-/

namespace Distribuicao

/-- A raw timestamp as delivered by the database driver, before
`pd.to_datetime(..., errors='coerce')`. -/
inductive RawTs where
  | ts (t : Int)
  | null
  | malformed (s : String)
deriving DecidableEq, Repr

/-- `pd.to_datetime(df["activity_date"], errors='coerce')` (line 107):
parseable values survive, `NULL` and malformed values coerce to `NaT`
(`none`) instead of raising. -/
def coerceTs : RawTs → Option Int
  | .ts t => some t
  | .null => none
  | .malformed _ => none

/-- One row of `ViewGrdAtividadesTarcisio` as seen by the SQL query. -/
structure DBRow where
  activity_id : Int
  activity_folder : Option String
  user_profile_name : Option String
  activity_date : RawTs
  activity_status : String
  texto : Option String
  activity_type : String
deriving DecidableEq, Repr

/-- One normalised row of the loaded DataFrame (lines 105-108). -/
structure Row where
  activity_id : String
  activity_folder : Option String
  user_profile_name : Option String
  activity_date : Option Int
  activity_status : String
  texto : String
deriving DecidableEq, Repr

/-- `DATE(v.activity_date) BETWEEN :data_inicio AND :data_fim` with SQL
three-valued logic: a `NULL` (or unparseable) date never satisfies the
predicate. -/
def dateBetween (d : RawTs) (lo hi : Int) : Bool :=
  match d with
  | .ts t => decide (lo ≤ t) && decide (t ≤ hi)
  | _ => false

/-- The join of the CTE `PastasComAbertas` back onto `v.activity_folder`
(lines 78-93): it holds iff the row's folder is non-`NULL` and some
'Verificar' row with status 'Aberta' has that same folder (SQL equality
never matches `NULL`). -/
def hasOpenFolderMate (tbl : List DBRow) (v : DBRow) : Bool :=
  match v.activity_folder with
  | none => false
  | some f => tbl.any (fun r =>
      r.activity_type == "Verificar" && r.activity_status == "Aberta" &&
        r.activity_folder == some f)

/-- The `WHERE` clause of the query (lines 94-99): `activity_type =
'Verificar'`, folder joined against `PastasComAbertas`, and
(`activity_status = 'Aberta'` or date within the window). -/
def queryRows (tbl : List DBRow) (lo hi : Int) : List DBRow :=
  tbl.filter (fun v =>
    v.activity_type == "Verificar" && hasOpenFolderMate tbl v &&
      (v.activity_status == "Aberta" || dateBetween v.activity_date lo hi))

/-- The pandas normalisation of lines 105-108: id rendered as text, date
coerced, text defaulted to the empty string. -/
def normalizeRow (r : DBRow) : Row :=
  { activity_id := toString r.activity_id
    activity_folder := r.activity_folder
    user_profile_name := r.user_profile_name
    activity_date := coerceTs r.activity_date
    activity_status := r.activity_status
    texto := r.texto.getD "" }

/-- Sort key of the load-time `sort_values("activity_date",
ascending=False)` (line 110): descending on the date with `NaT` last,
i.e. ascending on `WithTop (OrderDual Int)` where `NaT` is `⊤`. -/
def dateKey (r : Row) : WithTop (OrderDual Int) :=
  match r.activity_date with
  | none => ⊤
  | some t => ((OrderDual.toDual t : OrderDual Int) : WithTop (OrderDual Int))

/-- Row order of the load-time sort (line 110). -/
def LoadLE (a b : Row) : Prop := dateKey a ≤ dateKey b

instance : DecidableRel LoadLE :=
  fun a b => inferInstanceAs (Decidable (dateKey a ≤ dateKey b))

instance : IsTotal Row LoadLE := ⟨fun a b => le_total (dateKey a) (dateKey b)⟩

instance : IsTrans Row LoadLE := ⟨fun _ _ _ h h' => le_trans h h'⟩

/-- `carregar_dados_contextuais` (lines 67-113), with the database
modelled as an `Except`: `.ok tbl` is a successful query against table
`tbl`, `.error e` a `SQLAlchemyError`.  The first component is the list
of operator-visible `st.error` messages; the second is the returned
DataFrame.  On failure the function reports the error and returns an
empty frame (lines 111-113). -/
def carregar (db : Except String (List DBRow)) (lo hi : Int) :
    List String × List Row :=
  match db with
  | .error e => (["Erro ao executar a consulta no banco de dados: " ++ e], [])
  | .ok tbl => ([], List.insertionSort LoadLE ((queryRows tbl lo hi).map normalizeRow))

/-- pandas scalar equality against a possibly-missing value (line 250,
`df_contexto_total['activity_folder'] == pasta`): `NaN` compares unequal
to everything, including `NaN` itself. -/
def nanEq : Option String → Option String → Bool
  | some a, some b => a == b
  | _, _ => false

/-- The sidebar filter selections of lines 173-179.  `texto` is the free
text of `st.text_input`; empty selections mean "no filtering" (the
`if pastas_selecionadas:` / `if usuarios_selecionados:` / `if texto_busca:`
truthiness checks of lines 182-187). -/
structure Filters where
  pastas : List String
  usuarios : List String
  texto : String
deriving DecidableEq, Repr

/-- Line 182-183: keep rows whose folder is `isin` the selected folders
(a missing folder is in no selection). -/
def filterPastas (l : List Row) (sel : List String) : List Row :=
  if sel.isEmpty then l
  else l.filter (fun r => sel.any (fun p => r.activity_folder == some p))

/-- Line 184-185: keep rows whose assignee is `isin` the selected users. -/
def filterUsuarios (l : List Row) (sel : List String) : List Row :=
  if sel.isEmpty then l
  else l.filter (fun r => sel.any (fun u => r.user_profile_name == some u))

/-- Line 186-187: `df['Texto'].str.contains(texto_busca, case=False,
na=False)`.  pandas performs a case-insensitive regular-expression
search; the match predicate is abstracted as an arbitrary Boolean
function `tm texto busca`, universally quantified in every theorem
(`na=False` is moot because `Texto` was `fillna("")`-normalised). -/
def filterTexto (l : List Row) (busca : String) (tm : String → String → Bool) :
    List Row :=
  if busca.isEmpty then l else l.filter (fun r => tm r.texto busca)

/-- Lines 181-187: the three open-set filters in program order. -/
def applyFilters (ab : List Row) (F : Filters) (tm : String → String → Bool) :
    List Row :=
  filterTexto (filterUsuarios (filterPastas ab F.pastas) F.usuarios) F.texto tm

/-- Line 168: `df_abertas = df_contexto_total[df_contexto_total
['activity_status'] == 'Aberta'].copy()`. -/
def abertasDe (batch : List Row) : List Row :=
  batch.filter (fun r => r.activity_status == "Aberta")

/-- The post-filter open rows the rest of `main` works on. -/
def abertasFiltrado (batch : List Row) (F : Filters)
    (tm : String → String → Bool) : List Row :=
  applyFilters (abertasDe batch) F tm

/-- One entry of `value_counts()` on `activity_folder` (line 191): the
number of occurrences of the (non-null) folder `f`. -/
def contagemPasta (filtrado : List Row) (f : String) : Nat :=
  (filtrado.filter (fun r => r.activity_folder == some f)).length

/-- Line 192: `map(contagem_pastas) > 1`.  `value_counts` drops `NaN`
keys and `map` sends an absent key to `NaN`, and `NaN > 1` is false, so a
row with a missing folder is never flagged. -/
def alertaPasta (filtrado : List Row) (r : Row) : Bool :=
  match r.activity_folder with
  | none => false
  | some f => decide (1 < contagemPasta filtrado f)

/-- Key for `sort_values(by=['user_profile_name', 'activity_folder',
'activity_date'], ascending=[True, True, False])` (lines 195-198):
assignee ascending, then folder ascending, then date descending, each
column with `NaN` placed last (`⊤`). -/
def userKey (r : Row) : WithTop String :=
  match r.user_profile_name with
  | none => ⊤
  | some s => (s : WithTop String)

/-- Folder component of the aggregator sort key (ascending, `NaN` last). -/
def folderKey (r : Row) : WithTop String :=
  match r.activity_folder with
  | none => ⊤
  | some s => (s : WithTop String)

/-- The full lexicographic sort key of lines 195-198. -/
def sortKey (r : Row) :
    (WithTop String) ×ₗ ((WithTop String) ×ₗ (WithTop (OrderDual Int))) :=
  toLex (userKey r, toLex (folderKey r, dateKey r))

/-- Row order of the aggregator sort (lines 195-198). -/
def RowLE (a b : Row) : Prop := sortKey a ≤ sortKey b

instance : DecidableRel RowLE :=
  fun a b => inferInstanceAs (Decidable (sortKey a ≤ sortKey b))

instance : IsTotal Row RowLE := ⟨fun a b => le_total (sortKey a) (sortKey b)⟩

instance : IsTrans Row RowLE := ⟨fun _ _ _ h h' => le_trans h h'⟩

/-- The aggregator sorts the frame after the `alerta_pasta` column was
attached; the key reads only the `Row` component. -/
def PairLE (a b : Row × Bool) : Prop := RowLE a.1 b.1

instance : DecidableRel PairLE :=
  fun a b => inferInstanceAs (Decidable (sortKey a.1 ≤ sortKey b.1))

instance : IsTotal (Row × Bool) PairLE :=
  ⟨fun a b => le_total (sortKey a.1) (sortKey b.1)⟩

instance : IsTrans (Row × Bool) PairLE := ⟨fun _ _ _ h h' => le_trans h h'⟩

/-- Line 250: `df_contexto_total[df_contexto_total['activity_folder'] ==
pasta]`, the folder history of one open row, taken from the FULL loaded
batch with pandas `NaN` equality. -/
def historyOf (batch : List Row) (pasta : Option String) : List Row :=
  batch.filter (fun x => nanEq x.activity_folder pasta)

/-- One rendered expander (lines 225-253): the open row, its alert flag,
and its folder history.  The history rows are plain `Row`s: the
`alerta_pasta` column exists only on the (copied) open subset. -/
structure Group where
  activity : Row
  alerta : Bool
  history : List Row
deriving DecidableEq, Repr

/-- Line 189-192: the filtered open frame with its `alerta_pasta` column. -/
def withAlerta (batch : List Row) (F : Filters)
    (tm : String → String → Bool) : List (Row × Bool) :=
  (abertasFiltrado batch F tm).map
    (fun r => (r, alertaPasta (abertasFiltrado batch F tm) r))

/-- Lines 194-198: the sorted filtered open frame. -/
def sortedAbertas (batch : List Row) (F : Filters)
    (tm : String → String → Bool) : List (Row × Bool) :=
  List.insertionSort PairLE (withAlerta batch F tm)

/-- The whole aggregation pass of `main` (lines 168-253): filter the open
subset, attach the alert column, sort, and pair each open row with its
folder history from the full batch. -/
def aggregate (batch : List Row) (F : Filters)
    (tm : String → String → Bool) : List Group :=
  (sortedAbertas batch F tm).map
    (fun p => { activity := p.1, alerta := p.2
                history := historyOf batch p.1.activity_folder })

/-- Result of one render cycle of `main` (lines 116-268), at the level of
control flow the claims speak about. -/
inductive Outcome where
  | loginRequired
  | invalidRange
  | noEngine
  | noData
  | rendered (groups : List Group)
deriving DecidableEq, Repr

/-- The control flow of `main`: login gate (lines 117-136), date-range
gate (lines 148-150, before any database access), engine check (lines
157-160), load (line 162), empty check (lines 164-166), aggregation.
`engine = none` models `db_engine_mysql()` returning `None`; `some db`
models an engine whose query outcome is `db`. -/
def mainFlow (loggedIn : Bool) (dataInicio dataFim : Int)
    (engine : Option (Except String (List DBRow))) (F : Filters)
    (tm : String → String → Bool) : Outcome :=
  if !loggedIn then .loginRequired
  else if dataFim < dataInicio then .invalidRange
  else
    match engine with
    | none => .noEngine
    | some db =>
      let rows := (carregar db dataInicio dataFim).2
      if rows.isEmpty then .noData
      else .rendered (aggregate rows F tm)

/-! ### Concrete sample data (used by witnesses and counterexamples) -/

/-- An open `Verificar` activity of Alice in folder P1, dated 5. -/
def vAlice : DBRow :=
  ⟨1, some "P1", some "Alice", .ts 5, "Aberta", some "rever processo", "Verificar"⟩

/-- An open `Verificar` activity of Bob in the same folder P1, dated 4. -/
def vBob : DBRow :=
  ⟨2, some "P1", some "Bob", .ts 4, "Aberta", none, "Verificar"⟩

/-- An open `Verificar` activity with a `NULL` folder, dated 5. -/
def vSemPasta : DBRow :=
  ⟨3, none, some "Carol", .ts 5, "Aberta", some "sem pasta", "Verificar"⟩

/-- An open `Verificar` activity whose timestamp is malformed. -/
def vMalformada : DBRow :=
  ⟨4, some "P2", some "Dave", .malformed "32/13/0000", "Aberta", none, "Verificar"⟩

/-- `vAlice` after loading. -/
def rAlice : Row := normalizeRow vAlice

/-- `vBob` after loading. -/
def rBob : Row := normalizeRow vBob

/-- `vSemPasta` as an already-normalised row handed to the aggregator. -/
def rSemPasta : Row := normalizeRow vSemPasta

/-- No sidebar filter selected. -/
def semFiltros : Filters := ⟨[], [], ""⟩

/-- Only assignee Alice selected. -/
def filtroAlice : Filters := ⟨[], ["Alice"], ""⟩

/-- A text-match predicate instance for closed witnesses. -/
def tmTrue : String → String → Bool := fun _ _ => true

/-! ### Helper lemmas -/

lemma filterPastas_subset (l : List Row) (sel : List String) :
    filterPastas l sel ⊆ l := by
  unfold filterPastas
  split
  · exact List.Subset.refl l
  · exact fun x hx => (List.mem_filter.mp hx).1

lemma filterUsuarios_subset (l : List Row) (sel : List String) :
    filterUsuarios l sel ⊆ l := by
  unfold filterUsuarios
  split
  · exact List.Subset.refl l
  · exact fun x hx => (List.mem_filter.mp hx).1

lemma filterTexto_subset (l : List Row) (busca : String)
    (tm : String → String → Bool) : filterTexto l busca tm ⊆ l := by
  unfold filterTexto
  split
  · exact List.Subset.refl l
  · exact fun x hx => (List.mem_filter.mp hx).1

lemma applyFilters_subset (ab : List Row) (F : Filters)
    (tm : String → String → Bool) : applyFilters ab F tm ⊆ ab := by
  intro r hr
  exact filterPastas_subset _ _
    (filterUsuarios_subset _ _ (filterTexto_subset _ _ _ hr))

lemma mem_abertasDe {batch : List Row} {r : Row} (hr : r ∈ abertasDe batch) :
    r ∈ batch ∧ r.activity_status = "Aberta" := by
  have h := List.mem_filter.mp hr
  exact ⟨h.1, by simpa using h.2⟩

lemma abertasFiltrado_subset (batch : List Row) (F : Filters)
    (tm : String → String → Bool) :
    abertasFiltrado batch F tm ⊆ abertasDe batch :=
  applyFilters_subset _ _ _

/-- Eliminate membership in the aggregator's output: the emitted activity
is one of the post-filter open rows, the flag is its alert value on the
post-filter open set, and the history is the batch-wide folder lookup. -/
lemma mem_aggregate {batch : List Row} {F : Filters}
    {tm : String → String → Bool} {g : Group}
    (hg : g ∈ aggregate batch F tm) :
    g.activity ∈ abertasFiltrado batch F tm ∧
      g.alerta = alertaPasta (abertasFiltrado batch F tm) g.activity ∧
      g.history = historyOf batch g.activity.activity_folder := by
  obtain ⟨p, hp, rfl⟩ := List.mem_map.mp hg
  have hp' : p ∈ withAlerta batch F tm :=
    (List.perm_insertionSort PairLE (withAlerta batch F tm)).subset hp
  obtain ⟨r, hr, rfl⟩ := List.mem_map.mp hp'
  exact ⟨hr, rfl, rfl⟩

/-- The activities of the aggregator output, as the sorted filtered rows. -/
lemma aggregate_map_activity (batch : List Row) (F : Filters)
    (tm : String → String → Bool) :
    (aggregate batch F tm).map Group.activity =
      (sortedAbertas batch F tm).map Prod.fst := by
  unfold aggregate
  rw [List.map_map]
  rfl

lemma aggregate_activities_sorted (batch : List Row) (F : Filters)
    (tm : String → String → Bool) :
    List.Sorted RowLE ((aggregate batch F tm).map Group.activity) := by
  rw [aggregate_map_activity]
  exact List.Pairwise.map Prod.fst (fun _ _ h => h)
    (List.sorted_insertionSort PairLE (withAlerta batch F tm))

lemma aggregate_activities_perm (batch : List Row) (F : Filters)
    (tm : String → String → Bool) :
    ((aggregate batch F tm).map Group.activity).Perm
      (abertasFiltrado batch F tm) := by
  rw [aggregate_map_activity]
  refine ((List.perm_insertionSort PairLE (withAlerta batch F tm)).map
    Prod.fst).trans ?_
  have h3 : (withAlerta batch F tm).map Prod.fst = abertasFiltrado batch F tm := by
    unfold withAlerta
    rw [List.map_map]
    exact List.map_id _
  rw [h3]

/-- Introduce membership in a successful load: any table row passing the
query's `WHERE` clause appears (normalised) in the returned frame. -/
lemma mem_carregar_ok {tbl : List DBRow} {v : DBRow} (lo hi : Int)
    (hv : v ∈ tbl)
    (hcond : (v.activity_type == "Verificar" && hasOpenFolderMate tbl v &&
      (v.activity_status == "Aberta" || dateBetween v.activity_date lo hi)) = true) :
    normalizeRow v ∈ (carregar (Except.ok tbl) lo hi).2 := by
  have hq : v ∈ queryRows tbl lo hi := List.mem_filter.mpr ⟨hv, hcond⟩
  have hm : normalizeRow v ∈ (queryRows tbl lo hi).map normalizeRow :=
    List.mem_map_of_mem normalizeRow hq
  exact (List.perm_insertionSort LoadLE _).mem_iff.mpr hm

/-- Every row of a loaded frame has a non-null folder: the SQL join on
`activity_folder` never matches `NULL`. -/
lemma carregar_folder_some {db : Except String (List DBRow)} {lo hi : Int}
    {r : Row} (hr : r ∈ (carregar db lo hi).2) :
    ∃ f, r.activity_folder = some f := by
  cases db with
  | error e => simp [carregar] at hr
  | ok tbl =>
    have hr' : r ∈ (queryRows tbl lo hi).map normalizeRow :=
      (List.perm_insertionSort LoadLE _).subset hr
    obtain ⟨v, hv, rfl⟩ := List.mem_map.mp hr'
    have hcond := (List.mem_filter.mp hv).2
    have hmate : hasOpenFolderMate tbl v = true := by
      simp only [Bool.and_eq_true] at hcond
      exact hcond.1.2
    cases hfold : v.activity_folder with
    | none => rw [hasOpenFolderMate, hfold] at hmate; exact absurd hmate (by simp)
    | some f => exact ⟨f, by simp [normalizeRow, hfold]⟩

/-- The lexicographic order is monotone in its first key: a sorted pair of
rows has non-decreasing assignee keys. -/
lemma rowLE_userKey {a b : Row} (h : RowLE a b) : userKey a ≤ userKey b := by
  unfold RowLE sortKey at h
  rcases (Prod.Lex.le_iff _ _).mp h with h1 | ⟨h1, -⟩
  · exact le_of_lt h1
  · exact le_of_eq h1

/-- When the first two keys agree, the lexicographic order reduces to the
date key. -/
lemma rowLE_dateKey_of_eq {a b : Row} (h : RowLE a b)
    (hu : userKey a = userKey b) (hf : folderKey a = folderKey b) :
    dateKey a ≤ dateKey b := by
  unfold RowLE sortKey at h
  rcases (Prod.Lex.le_iff _ _).mp h with h1 | ⟨-, h2⟩
  · rw [hu] at h1; exact absurd h1 (lt_irrefl _)
  · rcases (Prod.Lex.le_iff _ _).mp h2 with h3 | ⟨-, h4⟩
    · rw [hf] at h3; exact absurd h3 (lt_irrefl _)
    · exact h4

lemma dateKey_of_none {a : Row} (ha : a.activity_date = none) :
    dateKey a = ⊤ := by
  simp [dateKey, ha]

/-- A missing date is the top of the (descending) date order: anything at
or above it also has a missing date. -/
lemma date_none_of_dateKey_le {a b : Row} (h : dateKey a ≤ dateKey b)
    (ha : a.activity_date = none) : b.activity_date = none := by
  rw [dateKey_of_none ha] at h
  have hb := top_le_iff.mp h
  cases hd : b.activity_date with
  | none => rfl
  | some t =>
    rw [dateKey, hd] at hb
    exact absurd hb (WithTop.coe_ne_top)

lemma userKey_le_of_some {a b : Row} {x y : String}
    (h : userKey a ≤ userKey b) (hx : a.user_profile_name = some x)
    (hy : b.user_profile_name = some y) : x ≤ y := by
  rw [userKey, hx, userKey, hy] at h
  exact WithTop.coe_le_coe.mp h

lemma userKey_congr {a b : Row} (h : a.user_profile_name = b.user_profile_name) :
    userKey a = userKey b := by
  unfold userKey
  rw [h]

lemma folderKey_congr {a b : Row} (h : a.activity_folder = b.activity_folder) :
    folderKey a = folderKey b := by
  unfold folderKey
  rw [h]

/-- pandas `NaN` equality against a concrete folder value. -/
lemma nanEq_some {o : Option String} {f : String}
    (h : nanEq o (some f) = true) : o = some f := by
  cases o with
  | none => simp [nanEq] at h
  | some a =>
    simp only [nanEq, beq_iff_eq] at h
    exact congrArg some h

lemma nanEq_none_right (o : Option String) : nanEq o none = false := by
  cases o <;> rfl

/-- The loaded frame is sorted date-descending with missing dates last. -/
lemma carregar_sorted (db : Except String (List DBRow)) (lo hi : Int) :
    List.Sorted LoadLE (carregar db lo hi).2 := by
  cases db with
  | error e => simp [carregar]
  | ok tbl => exact List.sorted_insertionSort LoadLE _

/-! ### The claims -/

/-- C1: for every loaded batch and every choice of filters, an emitted
open row is flagged `alerta` exactly when the number of post-filter open
rows sharing its folder exceeds 1; the count is taken over the filtered
open set (`abertasFiltrado`), not over the full batch nor the pre-filter
open set. -/
theorem c1_alerta_iff_contagem_filtrada (db : Except String (List DBRow))
    (lo hi : Int) (F : Filters) (tm : String → String → Bool) (g : Group)
    (hg : g ∈ aggregate ((carregar db lo hi).2) F tm) :
    g.alerta = true ↔
      1 < (((abertasFiltrado ((carregar db lo hi).2) F tm)).filter
        (fun r => r.activity_folder == g.activity.activity_folder)).length := by
  obtain ⟨hmem, halert, -⟩ := mem_aggregate hg
  have hbatch : g.activity ∈ (carregar db lo hi).2 :=
    (mem_abertasDe (abertasFiltrado_subset _ _ _ hmem)).1
  obtain ⟨f, hf⟩ := carregar_folder_some hbatch
  rw [halert]
  simp [alertaPasta, hf, contagemPasta]

/-- C1 witness at a concrete one-row load. -/
theorem c1_witness :
    ({ activity := rAlice, alerta := false, history := [rAlice] } : Group).alerta = true ↔
      1 < (((abertasFiltrado ((carregar (Except.ok [vAlice]) 0 10).2) semFiltros tmTrue)).filter
        (fun r => r.activity_folder ==
          ({ activity := rAlice, alerta := false, history := [rAlice] } : Group).activity.activity_folder)).length :=
  c1_alerta_iff_contagem_filtrada (Except.ok [vAlice]) 0 10 semFiltros tmTrue
    { activity := rAlice, alerta := false, history := [rAlice] } (by decide)

/-- C2: the filters restrict only which open rows are emitted.  Each
emitted group's history is the batch-wide folder lookup (a term that does
not mention the filters), every batch row of the same folder appears in
the history even if the filters exclude it, the emitted activities are a
permutation of the post-filter open rows, and two runs with different
filters give identical histories to groups of the same folder. -/
theorem c2_filtros_apenas_abertas (batch : List Row) (F : Filters)
    (tm : String → String → Bool) :
    (∀ g ∈ aggregate batch F tm,
        g.history = historyOf batch g.activity.activity_folder) ∧
    (∀ g ∈ aggregate batch F tm, ∀ x ∈ batch,
        nanEq x.activity_folder g.activity.activity_folder = true →
          x ∈ g.history) ∧
    ((aggregate batch F tm).map Group.activity).Perm
      (abertasFiltrado batch F tm) ∧
    (∀ (F' : Filters) (tm' : String → String → Bool),
      ∀ g ∈ aggregate batch F tm, ∀ g' ∈ aggregate batch F' tm',
        g.activity.activity_folder = g'.activity.activity_folder →
          g.history = g'.history) := by
  refine ⟨fun g hg => (mem_aggregate hg).2.2, ?_, aggregate_activities_perm batch F tm, ?_⟩
  · intro g hg x hx hfold
    rw [(mem_aggregate hg).2.2]
    exact List.mem_filter.mpr ⟨hx, hfold⟩
  · intro F' tm' g hg g' hg' hfold
    rw [(mem_aggregate hg).2.2, (mem_aggregate hg').2.2, hfold]

/-- C2 witness: filtering on assignee Alice emits only her open row, yet
that group's history still holds Bob's same-folder row. -/
theorem c2_witness : rBob ∈
    ({ activity := rAlice, alerta := false, history := [rAlice, rBob] } : Group).history :=
  (c2_filtros_apenas_abertas [rAlice, rBob] filtroAlice tmTrue).2.1
    { activity := rAlice, alerta := false, history := [rAlice, rBob] }
    (by decide) rBob (by decide) (by decide)

/-- C3 counterexample: a batch whose single open row has a missing folder
key is emitted with an EMPTY history — pandas `NaN` equality matches no
row, not even the open row itself — refuting "the history contains at
least one row (the open row itself) including when the folder key is
missing/null". -/
theorem c3_counterexample :
    (aggregate [rSemPasta] semFiltros tmTrue).map Group.history = [[]] ∧
    (aggregate [rSemPasta] semFiltros tmTrue).map Group.activity = [rSemPasta] := by
  decide

/-- C3 (amended): each emitted history equals the rows of the full batch
whose folder compares equal (pandas semantics) to the open row's folder;
when that folder is non-null the history contains the open row itself and
every history row carries that same folder, but when the folder key is
missing/null the history is empty. -/
theorem c3_historico_da_pasta (batch : List Row) (F : Filters)
    (tm : String → String → Bool) :
    ∀ g ∈ aggregate batch F tm,
      g.history = batch.filter
        (fun x => nanEq x.activity_folder g.activity.activity_folder) ∧
      (∀ f, g.activity.activity_folder = some f →
        g.activity ∈ g.history ∧ g.history ≠ [] ∧
          ∀ x ∈ g.history, x.activity_folder = some f) ∧
      (g.activity.activity_folder = none → g.history = []) := by
  intro g hg
  obtain ⟨hmem, -, hhist⟩ := mem_aggregate hg
  have hbatch : g.activity ∈ batch :=
    (mem_abertasDe (abertasFiltrado_subset _ _ _ hmem)).1
  refine ⟨hhist, ?_, ?_⟩
  · intro f hf
    have hself : g.activity ∈ g.history := by
      rw [hhist]
      refine List.mem_filter.mpr ⟨hbatch, ?_⟩
      rw [hf]
      simp [nanEq]
    refine ⟨hself, List.ne_nil_of_mem hself, ?_⟩
    intro x hx
    rw [hhist, hf] at hx
    exact nanEq_some (List.mem_filter.mp hx).2
  · intro hf
    rw [hhist, hf]
    unfold historyOf
    exact List.filter_eq_nil_iff.mpr (fun x _ => by simp [nanEq_none_right])

/-- C3 witness at a concrete one-row batch with a concrete folder. -/
theorem c3_witness :
    ({ activity := rAlice, alerta := false, history := [rAlice] } : Group).activity ∈
      ({ activity := rAlice, alerta := false, history := [rAlice] } : Group).history :=
  ((c3_historico_da_pasta [rAlice] semFiltros tmTrue
      { activity := rAlice, alerta := false, history := [rAlice] }
      (by decide)).2.1 "P1" (by decide)).1

/-- C4: the emitted open rows are sorted by the lexicographic key
(assignee ascending, folder ascending, timestamp descending, missing
values last per column), they are a permutation of the post-filter open
rows, and in particular assignees appear in non-decreasing order
regardless of the rows' timestamps. -/
theorem c4_ordenacao_lexicografica (batch : List Row) (F : Filters)
    (tm : String → String → Bool) :
    List.Sorted RowLE ((aggregate batch F tm).map Group.activity) ∧
    ((aggregate batch F tm).map Group.activity).Perm
      (abertasFiltrado batch F tm) ∧
    ((aggregate batch F tm).map Group.activity).Pairwise
      (fun x y => ∀ a b : String, x.user_profile_name = some a →
        y.user_profile_name = some b → a ≤ b) := by
  refine ⟨aggregate_activities_sorted batch F tm,
    aggregate_activities_perm batch F tm, ?_⟩
  refine (aggregate_activities_sorted batch F tm).imp ?_
  intro x y hxy a b hx hy
  exact userKey_le_of_some (rowLE_userKey hxy) hx hy

/-- C4 witness: the sortedness of a concrete two-row emission. -/
theorem c4_witness :
    List.Sorted RowLE ((aggregate [rAlice, rBob] semFiltros tmTrue).map
      Group.activity) :=
  (c4_ordenacao_lexicografica [rAlice, rBob] semFiltros tmTrue).1

/-- C5 counterexample: an open `Verificar` activity whose folder is
`NULL` is NOT in the loaded batch — the join
`v.activity_folder = p.activity_folder` never matches `NULL` — even
though its date (5) lies inside the window [0, 10], refuting "the batch
contains every open activity regardless of its date". -/
theorem c5_counterexample :
    (carregar (Except.ok [vSemPasta]) 0 10).2 = [] := by decide

/-- C5 (amended): for every folder key `f`, if some open `Verificar`
activity of folder `f` lies in the window then every windowed `Verificar`
row of folder `f` is loaded; and every open `Verificar` activity with a
NON-NULL folder is loaded regardless of its date.  Open activities with a
`NULL` folder are excluded by the join, not by the date window. -/
theorem c5_carga_contextual (tbl : List DBRow) (lo hi : Int) :
    (∀ v ∈ tbl, v.activity_type = "Verificar" →
      ∀ f, v.activity_folder = some f →
      (∃ o ∈ tbl, o.activity_type = "Verificar" ∧
        o.activity_status = "Aberta" ∧ o.activity_folder = some f ∧
        dateBetween o.activity_date lo hi = true) →
      dateBetween v.activity_date lo hi = true →
      normalizeRow v ∈ (carregar (Except.ok tbl) lo hi).2) ∧
    (∀ v ∈ tbl, v.activity_type = "Verificar" →
      v.activity_status = "Aberta" → ∀ f, v.activity_folder = some f →
      normalizeRow v ∈ (carregar (Except.ok tbl) lo hi).2) := by
  constructor
  · intro v hv ht f hf hex hdate
    obtain ⟨o, ho, hot, hos, hofold, -⟩ := hex
    apply mem_carregar_ok lo hi hv
    have hmate : hasOpenFolderMate tbl v = true := by
      simp only [hasOpenFolderMate, hf]
      exact List.any_eq_true.mpr ⟨o, ho, by simp [hot, hos, hofold]⟩
    simp [ht, hmate, hdate]
  · intro v hv ht hs f hf
    apply mem_carregar_ok lo hi hv
    have hmate : hasOpenFolderMate tbl v = true := by
      simp only [hasOpenFolderMate, hf]
      exact List.any_eq_true.mpr ⟨v, hv, by simp [ht, hs, hf]⟩
    simp [ht, hs, hmate]

/-- C5 witness: Alice's open activity dated 5 is loaded although the
queried window is [20, 30]. -/
theorem c5_witness :
    normalizeRow vAlice ∈ (carregar (Except.ok [vAlice]) 20 30).2 :=
  (c5_carga_contextual [vAlice] 20 30).2 vAlice (by decide) rfl rfl "P1" rfl

/-- C6: every group the aggregator emits wraps an activity whose status
is the distinguished open label "Aberta"; rows of any other status are
never emitted as a group's open activity. -/
theorem c6_atividade_aberta (batch : List Row) (F : Filters)
    (tm : String → String → Bool) :
    ∀ g ∈ aggregate batch F tm, g.activity.activity_status = "Aberta" := by
  intro g hg
  exact (mem_abertasDe (abertasFiltrado_subset _ _ _ (mem_aggregate hg).1)).2

/-- C6 witness at a concrete one-row batch. -/
theorem c6_witness :
    ({ activity := rAlice, alerta := false, history := [rAlice] } : Group).activity.activity_status = "Aberta" :=
  c6_atividade_aberta [rAlice] semFiltros tmTrue
    { activity := rAlice, alerta := false, history := [rAlice] } (by decide)

/-- C7: a malformed timestamp does not abort the load — it is coerced to
the missing sentinel (`none`) and the row still loads (when open) — and
in both produced orders (the load-time date-descending sort, and the
aggregator sort within one assignee/folder group) a missing-date row is
placed after every row with a valid timestamp. -/
theorem c7_data_malformada (tbl : List DBRow) (lo hi : Int) (v : DBRow)
    (s f : String) (hv : v ∈ tbl) (ht : v.activity_type = "Verificar")
    (hs : v.activity_status = "Aberta") (hf : v.activity_folder = some f)
    (hd : v.activity_date = RawTs.malformed s) :
    ((normalizeRow v).activity_date = none ∧
      normalizeRow v ∈ (carregar (Except.ok tbl) lo hi).2) ∧
    List.Sorted LoadLE (carregar (Except.ok tbl) lo hi).2 ∧
    (∀ a b : Row, LoadLE a b → a.activity_date = none →
      b.activity_date = none) ∧
    (∀ (batch : List Row) (F : Filters) (tm : String → String → Bool),
      List.Sorted RowLE ((aggregate batch F tm).map Group.activity)) ∧
    (∀ a b : Row, RowLE a b →
      a.user_profile_name = b.user_profile_name →
      a.activity_folder = b.activity_folder →
      a.activity_date = none → b.activity_date = none) := by
  refine ⟨⟨by simp [normalizeRow, coerceTs, hd], ?_⟩,
    carregar_sorted _ lo hi, ?_,
    fun batch F tm => aggregate_activities_sorted batch F tm, ?_⟩
  · apply mem_carregar_ok lo hi hv
    have hmate : hasOpenFolderMate tbl v = true := by
      simp only [hasOpenFolderMate, hf]
      exact List.any_eq_true.mpr ⟨v, hv, by simp [ht, hs, hf]⟩
    simp [ht, hs, hmate]
  · exact fun a b h ha => date_none_of_dateKey_le h ha
  · intro a b h hu hfold ha
    exact date_none_of_dateKey_le
      (rowLE_dateKey_of_eq h (userKey_congr hu) (folderKey_congr hfold)) ha

/-- C7 witness: the malformed-date open row loads with a missing date. -/
theorem c7_witness :
    (normalizeRow vMalformada).activity_date = none ∧
      normalizeRow vMalformada ∈ (carregar (Except.ok [vMalformada]) 0 10).2 :=
  (c7_data_malformada [vMalformada] 0 10 vMalformada "32/13/0000" "P2"
    (by decide) rfl rfl rfl rfl).1

/-- C8 counterexample: the frame the loader returns on a query failure is
EQUAL to the frame of a successful query with no matching rows — the
returned value does not distinguish "data unavailable" from "no matching
rows" (only the side-channel error message does). -/
theorem c8_counterexample :
    (carregar (Except.error "falha de conexao") 0 1).2 =
      (carregar (Except.ok []) 0 1).2 := rfl

/-- C8 (amended): on a query failure the loader returns an empty frame
(indistinguishable, as a value, from a successful empty result) while
surfacing an operator-visible error message; the downstream render
consumes the empty frame as "no data" and stops without partial results,
and a failed connection stops the cycle before the loader runs. -/
theorem c8_falha_vira_vazio (e : String) (lo hi : Int) (F : Filters)
    (tm : String → String → Bool) (h : lo ≤ hi) :
    (carregar (Except.error e) lo hi).2 = [] ∧
    (carregar (Except.error e) lo hi).1 ≠ [] ∧
    mainFlow true lo hi (some (Except.error e)) F tm = Outcome.noData ∧
    mainFlow true lo hi none F tm = Outcome.noEngine := by
  refine ⟨rfl, by simp [carregar], ?_, ?_⟩
  · simp [mainFlow, carregar, not_lt.mpr h]
  · simp [mainFlow, not_lt.mpr h]

/-- C8 witness at a concrete failure. -/
theorem c8_witness :
    mainFlow true 0 1 (some (Except.error "falha de conexao")) semFiltros
      tmTrue = Outcome.noData :=
  (c8_falha_vira_vazio "falha de conexao" 0 1 semFiltros tmTrue
    (by decide)).2.2.1

/-- C9: a date range whose start is strictly after its end is rejected
before any database access: whatever the engine and whatever the query
would have returned, the cycle ends in the invalid-range outcome, so the
outcome is independent of the database. -/
theorem c9_intervalo_invalido (dataInicio dataFim : Int)
    (h : dataFim < dataInicio) (F : Filters)
    (tm : String → String → Bool) :
    (∀ engine, mainFlow true dataInicio dataFim engine F tm =
      Outcome.invalidRange) ∧
    (∀ e1 e2, mainFlow true dataInicio dataFim e1 F tm =
      mainFlow true dataInicio dataFim e2 F tm) := by
  have hall : ∀ engine, mainFlow true dataInicio dataFim engine F tm =
      Outcome.invalidRange := by
    intro engine
    simp [mainFlow, h]
  exact ⟨hall, fun e1 e2 => (hall e1).trans (hall e2).symm⟩

/-- C9 witness: start 5, end 3, with a live database containing data. -/
theorem c9_witness :
    mainFlow true 5 3 (some (Except.ok [vAlice])) semFiltros tmTrue =
      Outcome.invalidRange :=
  (c9_intervalo_invalido 5 3 (by decide) semFiltros tmTrue).1
    (some (Except.ok [vAlice]))

/-- C10: the aggregation never alters the loaded batch: every history it
attaches is recomputed from the original batch rows (which are plain
`Row`s — the alert column lives only on the copied open subset), each
history element is a member of the original batch, each emitted activity
is a member of the original batch, and re-running the aggregation on the
same batch yields the identical output. -/
theorem c10_lote_imutavel (batch : List Row) (F : Filters)
    (tm : String → String → Bool) :
    aggregate batch F tm = aggregate batch F tm ∧
    (∀ g ∈ aggregate batch F tm,
      g.history = historyOf batch g.activity.activity_folder ∧
        ∀ x ∈ g.history, x ∈ batch) ∧
    (∀ g ∈ aggregate batch F tm, g.activity ∈ batch) := by
  refine ⟨rfl, ?_, ?_⟩
  · intro g hg
    refine ⟨(mem_aggregate hg).2.2, ?_⟩
    intro x hx
    rw [(mem_aggregate hg).2.2] at hx
    exact (List.mem_filter.mp hx).1
  · intro g hg
    exact (mem_abertasDe (abertasFiltrado_subset _ _ _ (mem_aggregate hg).1)).1

/-- C10 witness at a concrete one-row batch. -/
theorem c10_witness :
    ({ activity := rAlice, alerta := false, history := [rAlice] } : Group).activity ∈
      [rAlice] :=
  (c10_lote_imutavel [rAlice] semFiltros tmTrue).2.2
    { activity := rAlice, alerta := false, history := [rAlice] } (by decide)

end Distribuicao
